import Mathlib

/-!
Shallow embedding of the VorteX DEX front end: the peer client
(convex-client.js) and the interface controller (vortex-interface.js).
Network responses are inputs to the embedded functions; each stateful
operation returns its new state together with the client calls it issued,
so that claims about which requests are made become statements about the
returned call list.
-/

/-- Outcome of one HTTP request as seen by the calling code: either the
fetch itself failed (transport error or timeout), or a response arrived
carrying an ok flag (2xx status), an optional errorCode field and an
optional value field — the PeerResponse shape of convex-client.js. -/
inductive NetOutcome (α : Type) where
  | transportError (msg : String)
  | response (ok : Bool) (errorCode : Option String) (value : Option α)
deriving DecidableEq

/-- Local state of ConvexClient (convex-client.js, constructor): peer URL,
optional address and key pair, sequence counter and connection flag. -/
structure ClientState where
  peerUrl : String
  address : Option String
  keyPair : Option String
  sequence : Nat
  isConnected : Bool

/-- Errors raised by ConvexClient.transact. -/
inductive TransactError where
  | notConnected
  | noAddress
  | transportFail (msg : String)
  | httpError
  | peerError (code : String)
deriving DecidableEq

/-- ConvexClient.transact (convex-client.js lines 163-205): requires a
connection and an address; on a transport failure or a non-2xx response it
rethrows; a response carrying an errorCode field is an error regardless of
HTTP status; only on a clean response is the sequence counter incremented
and the value returned. -/
def transact (c : ClientState) (net : NetOutcome Int) :
    ClientState × Except TransactError (Option Int) :=
  if !c.isConnected then
    (c, .error .notConnected)
  else
    match c.address with
    | none => (c, .error .noAddress)
    | some _ =>
      match net with
      | .transportError m => (c, .error (.transportFail m))
      | .response ok ec v =>
        if !ok then
          (c, .error .httpError)
        else
          match ec with
          | some code => (c, .error (.peerError code))
          | none => ({ c with sequence := c.sequence + 1 }, .ok v)

/-- Errors raised by ConvexClient.query. -/
inductive QueryError where
  | transportFail (msg : String)
  | httpError
  | peerError (code : String)
deriving DecidableEq

/-- ConvexClient.query (convex-client.js lines 131-158): read-only POST of
a source expression (an opaque string that only travels to the peer);
throws on transport failure, non-2xx status, or a response carrying an
errorCode field; otherwise returns the response value. -/
def query (_source : String) (net : NetOutcome Int) : Except QueryError (Option Int) :=
  match net with
  | .transportError m => .error (.transportFail m)
  | .response ok ec v =>
    if !ok then
      .error .httpError
    else
      match ec with
      | some code => .error (.peerError code)
      | none => .ok v

/-- The source expression built by ConvexClient.getBalance. -/
def balanceSource (address : String) : String :=
  "(balance " ++ address ++ ")"

/-- ConvexClient.getBalance (convex-client.js lines 210-218): runs the
balance query; any failure is caught and 0 is returned (logged, not
propagated); on success the value defaults to 0 when absent or falsy. -/
def getBalance (address : String) (net : NetOutcome Int) : Int :=
  match query (balanceSource address) net with
  | .ok v => v.getD 0
  | .error _ => 0

/-- A network outcome on which query fails: transport error, non-2xx HTTP
status, or a peer-reported errorCode. -/
def netFailure : NetOutcome Int → Bool
  | .transportError _ => true
  | .response ok ec _ => !ok || ec.isSome

/-- State of the VorteXInterface controller (vortex-interface.js,
constructor): connection flag, in-flight swap flag, selected token pair,
entered amounts, and the token registry field this.tokens mapping a symbol
to an optional on-chain address (none embeds both a null entry and an
absent key, which JS treats alike as falsy). -/
structure SwapState where
  isConnected : Bool
  isSwapping : Bool
  fromToken : String
  toToken : String
  fromAmount : ℚ
  toAmount : ℚ
  tokens : String → Option String

/-- The native-alias test used by executeSwap: a symbol equals CVX or CVM. -/
def isNative (sym : String) : Bool :=
  sym == "CVX" || sym == "CVM"

/-- Client calls the controller can issue during one operation, in order. -/
inductive NetCall where
  | buyTokens (tokenAddress : Option String) (amount : ℚ)
  | sellTokens (tokenAddress : Option String) (amount : ℚ)
  | updateBalances
deriving DecidableEq

/-- The distinguishable failures executeSwap can raise: the invalid-amount
throw, the token-to-token throw, and a rethrown network error from the
underlying buy or sell transaction. -/
inductive SwapError where
  | invalidAmount
  | unsupportedSwap
  | netError
deriving DecidableEq

/-- Result classification of one executeSwap invocation. -/
inductive SwapOutcome where
  | notConnected
  | reentrant
  | success
  | failed (e : SwapError)
deriving DecidableEq

/-- VorteXInterface.executeSwap (vortex-interface.js lines 317-367).
The amount read from the input field is an Option so that none embeds a
NaN parse; netOk says whether the buy or sell transaction succeeds at the
peer. Returns the new state, the client calls issued in order, and the
outcome. The guards return without touching state; past them the try block
sets the in-flight flag, validates the amount, dispatches buy
(native to non-native), sell (non-native to native) or throws the
token-to-token error; on success it clears the amounts and refreshes
balances; the catch path refreshes nothing; finally clears the flag. -/
def executeSwap (st : SwapState) (inputAmount : Option ℚ) (netOk : Bool) :
    SwapState × List NetCall × SwapOutcome :=
  if !st.isConnected then
    (st, [], .notConnected)
  else if st.isSwapping then
    (st, [], .reentrant)
  else
    match inputAmount with
    | none =>
      ({ st with isSwapping := false }, [], .failed .invalidAmount)
    | some q =>
      if q ≤ 0 then
        ({ st with isSwapping := false }, [], .failed .invalidAmount)
      else if isNative st.fromToken && !isNative st.toToken then
        if netOk then
          ({ st with isSwapping := false, fromAmount := 0, toAmount := 0 },
           [.buyTokens (st.tokens st.toToken) q, .updateBalances], .success)
        else
          ({ st with isSwapping := false },
           [.buyTokens (st.tokens st.toToken) q], .failed .netError)
      else if !isNative st.fromToken && isNative st.toToken then
        if netOk then
          ({ st with isSwapping := false, fromAmount := 0, toAmount := 0 },
           [.sellTokens (st.tokens st.fromToken) q, .updateBalances], .success)
        else
          ({ st with isSwapping := false },
           [.sellTokens (st.tokens st.fromToken) q], .failed .netError)
      else
        ({ st with isSwapping := false }, [], .failed .unsupportedSwap)

/-- The value carried by the You-pay input field as the guard of
onFromAmountChange sees it: empty string, a string that does not coerce to
a number (isNaN), or a numeric value. -/
inductive InputValue where
  | empty
  | nonNumeric
  | num (q : ℚ)
deriving DecidableEq

/-- The rejection guard of onFromAmountChange (vortex-interface.js line
257): an empty value is falsy, a non-numeric value fails isNaN, and a
numeric value is rejected when at most zero. -/
def invalidInput : InputValue → Bool
  | .empty => true
  | .nonNumeric => true
  | .num q => decide (q ≤ 0)

/-- Exactly four decimal digits, most significant first, of a fractional
part below 10000. -/
def frac4 (n : Nat) : String :=
  String.mk [Nat.digitChar (n / 1000 % 10), Nat.digitChar (n / 100 % 10),
             Nat.digitChar (n / 10 % 10), Nat.digitChar (n % 10)]

/-- Exact-rational model of the toFixed(4) rendering applied to the
estimated output (vortex-interface.js line 273): round to the nearest
ten-thousandth (half up) and print the whole part, a point, and exactly
four fraction digits. Used on nonnegative values only, as the code path
guarantees a positive amount. -/
def toFixed4 (q : ℚ) : String :=
  Nat.repr ((⌊q * 10000 + 1 / 2⌋).toNat / 10000) ++ "." ++
    frac4 ((⌊q * 10000 + 1 / 2⌋).toNat % 10000)

/-- VorteXInterface.onFromAmountChange (vortex-interface.js lines
256-279): when disconnected or the input is empty, non-numeric or at most
zero, the output field is cleared and nothing is computed; otherwise
fromAmount is set, the estimate input * 0.97 is stored in toAmount and
rendered into the output field with toFixed(4). Returns the new state and
the contents of the You-receive field (none means cleared). -/
def onFromAmountChange (st : SwapState) (amount : InputValue) :
    SwapState × Option String :=
  if !st.isConnected || invalidInput amount then
    (st, none)
  else
    match amount with
    | .num q =>
      ({ st with fromAmount := q, toAmount := q * 0.97 },
       some (toFixed4 (q * 0.97)))
    | _ => (st, none)

/-- VorteXInterface.swapTokenPositions (vortex-interface.js lines
284-301): exchanges the token pair, zeroes both amounts, and refreshes
balances when connected. -/
def swapTokenPositions (st : SwapState) : SwapState × List NetCall :=
  ({ st with fromToken := st.toToken, toToken := st.fromToken,
             fromAmount := 0, toAmount := 0 },
   if st.isConnected then [NetCall.updateBalances] else [])

/-- JS truthiness of an optional token-address string: null, undefined and
the empty string are falsy. -/
def jsTruthyStr : Option String → Bool
  | none => false
  | some s => !(s == "")

/-- The contract balance query source built by getTokenBalance
(vortex-interface.js line 244). -/
def contractBalanceSource (tokenAddress account : String) : String :=
  "(call " ++ tokenAddress ++ " (balance " ++ account ++ "))"

/-- Which balance query one invocation of VorteXInterface.getTokenBalance
(vortex-interface.js lines 234-251) issues. -/
inductive BalanceQuery where
  | native
  | contractCall (source : String)
deriving DecidableEq

/-- The query dispatch of getTokenBalance (vortex-interface.js lines
238-245): when the registry holds no truthy address for the symbol, or the
symbol is CVX or CVM, the native balance is fetched via
ConvexClient.getBalance; otherwise a contract balance query is issued for
the registered address and the connected account. -/
def getTokenBalanceQuery (tokens : String → Option String)
    (clientAddress sym : String) : BalanceQuery :=
  if !(jsTruthyStr (tokens sym)) || sym == "CVX" || sym == "CVM" then
    .native
  else
    .contractCall (contractBalanceSource ((tokens sym).getD "") clientAddress)

/-- Connected idle controller state at the default token pair
(vortex-interface.js constructor defaults, after a successful connect). -/
def connectedIdle : SwapState :=
  { isConnected := true, isSwapping := false, fromToken := "CVX",
    toToken := "PAI", fromAmount := 0, toAmount := 0, tokens := fun _ => none }

/-- Connected idle state holding a token-to-token pair. -/
def tokenPairState : SwapState :=
  { connectedIdle with fromToken := "PAI", toToken := "USDC" }

/-- Connected idle state holding a native-to-native pair. -/
def nativePairState : SwapState :=
  { connectedIdle with fromToken := "CVX", toToken := "CVM" }

/-- Connected state with a swap already in flight. -/
def midSwapState : SwapState :=
  { connectedIdle with isSwapping := true }

/-- Claim C1: for a token-to-token pair (neither the from token nor the to
token is a native alias), executeSwap in the Connected state with no swap
in flight and a valid positive amount fails with the distinguishable
unsupported-swap error and issues no client call (no buyTokens, sellTokens
or transact), whatever the peer would have answered. -/
theorem executeSwap_token_to_token_unsupported (st : SwapState)
    (netOk : Bool) (q : ℚ) (hc : st.isConnected = true)
    (hs : st.isSwapping = false) (hq : 0 < q)
    (hf : isNative st.fromToken = false) (ht : isNative st.toToken = false) :
    (executeSwap st (some q) netOk).2.1 = [] ∧
    (executeSwap st (some q) netOk).2.2
      = SwapOutcome.failed SwapError.unsupportedSwap := by
  simp [executeSwap, hc, hs, hf, ht, not_le.mpr hq]

/-- Witness for C1 at the concrete pair PAI to USDC with amount 5. -/
theorem executeSwap_token_to_token_unsupported_witness :
    (executeSwap tokenPairState (some 5) true).2.1 = [] ∧
    (executeSwap tokenPairState (some 5) true).2.2
      = SwapOutcome.failed SwapError.unsupportedSwap :=
  executeSwap_token_to_token_unsupported tokenPairState true 5 rfl rfl
    (by norm_num) (by decide) (by decide)

/-- Claim C2 counterexample: a run of executeSwap that begins (connected,
not already swapping) and fails — the peer rejects the buy — clears the
in-flight flag but does not invoke updateBalances, refuting the part of
the claim that says balances are refreshed on failure as well. -/
theorem executeSwap_failure_skips_balance_refresh_cex :
    (executeSwap connectedIdle (some 5) false).2.2
      = SwapOutcome.failed SwapError.netError ∧
    (executeSwap connectedIdle (some 5) false).1.isSwapping = false ∧
    NetCall.updateBalances ∉ (executeSwap connectedIdle (some 5) false).2.1 := by
  decide

/-- Claim C2 amended: for every run of executeSwap that begins (connected,
not already swapping), the in-flight flag is cleared on completion whether
the swap succeeds or fails, and updateBalances is invoked exactly when the
swap succeeds. -/
theorem executeSwap_clears_flag_refresh_iff_success (st : SwapState)
    (inputAmount : Option ℚ) (netOk : Bool) (hc : st.isConnected = true)
    (hs : st.isSwapping = false) :
    (executeSwap st inputAmount netOk).1.isSwapping = false ∧
    (NetCall.updateBalances ∈ (executeSwap st inputAmount netOk).2.1 ↔
      (executeSwap st inputAmount netOk).2.2 = SwapOutcome.success) := by
  unfold executeSwap
  rw [hc, hs]
  cases inputAmount with
  | none => simp
  | some q =>
    by_cases hq : q ≤ 0
    · simp [hq]
    · by_cases hbuy : isNative st.fromToken && !isNative st.toToken
      · cases netOk <;> simp [hq, hbuy]
      · by_cases hsell : !isNative st.fromToken && isNative st.toToken
        · cases netOk <;> simp [hq, hbuy, hsell]
        · simp [hq, hbuy, hsell]

/-- Witness for the amended C2 at a concrete successful buy run. -/
theorem executeSwap_clears_flag_refresh_iff_success_witness :
    (executeSwap connectedIdle (some 5) true).1.isSwapping = false ∧
    (NetCall.updateBalances ∈ (executeSwap connectedIdle (some 5) true).2.1 ↔
      (executeSwap connectedIdle (some 5) true).2.2 = SwapOutcome.success) :=
  executeSwap_clears_flag_refresh_iff_success connectedIdle (some 5) true
    rfl rfl

/-- Claim C3: whenever the transact response body carries an errorCode
field — whatever the HTTP ok flag, so in particular with status 200 —
transact yields an error and leaves the whole client state, in particular
the sequence counter, unchanged. -/
theorem transact_errorCode_no_increment (c : ClientState) (ok : Bool)
    (code : String) (v : Option Int) :
    (transact c (NetOutcome.response ok (some code) v)).1 = c ∧
    ∀ r, (transact c (NetOutcome.response ok (some code) v)).2
      ≠ Except.ok r := by
  cases hcon : c.isConnected <;> cases haddr : c.address <;> cases ok <;>
    simp [transact, hcon, haddr]

/-- Claim C4: executeSwap invoked in the Connected state while the
isSwapping flag is true returns immediately: the state is unchanged, no
client call is issued, and the outcome marks the re-entrant no-op. -/
theorem executeSwap_reentrant_noop (st : SwapState)
    (inputAmount : Option ℚ) (netOk : Bool) (hc : st.isConnected = true)
    (hs : st.isSwapping = true) :
    executeSwap st inputAmount netOk = (st, [], SwapOutcome.reentrant) := by
  simp [executeSwap, hc, hs]

/-- Witness for C4 at a concrete in-flight state. -/
theorem executeSwap_reentrant_noop_witness :
    executeSwap midSwapState (some 5) true
      = (midSwapState, [], SwapOutcome.reentrant) :=
  executeSwap_reentrant_noop midSwapState (some 5) true rfl rfl

/-- Claim C5: for every address and every failure of the underlying query
(transport error, non-2xx status, or peer-reported errorCode), getBalance
returns 0; the error is not propagated, as the embedding makes getBalance
total with an integer result. -/
theorem getBalance_failure_returns_zero (address : String)
    (net : NetOutcome Int) (h : netFailure net = true) :
    getBalance address net = 0 := by
  cases net with
  | transportError m => simp [getBalance, query]
  | response ok ec v =>
    cases ok with
    | false => simp [getBalance, query]
    | true =>
      cases ec with
      | none => simp [netFailure] at h
      | some code => simp [getBalance, query]

/-- Witness for C5: a 200 response carrying an errorCode yields balance 0. -/
theorem getBalance_failure_returns_zero_witness :
    netFailure (NetOutcome.response true (some "FUNDS") (some 100)) = true ∧
    getBalance "#12" (NetOutcome.response true (some "FUNDS") (some 100)) = 0 :=
  ⟨rfl, getBalance_failure_returns_zero "#12"
    (NetOutcome.response true (some "FUNDS") (some 100)) rfl⟩

/-- Claim C6: in the Connected state, a valid positive numeric input makes
onFromAmountChange store the input, compute the output as input * 0.97,
and render it into the output field via toFixed4, a string with exactly
four digits after the decimal point. -/
theorem onFromAmountChange_valid_output (st : SwapState) (q : ℚ)
    (hc : st.isConnected = true) (hq : 0 < q) :
    onFromAmountChange st (InputValue.num q)
      = ({ st with fromAmount := q, toAmount := q * 0.97 },
         some (toFixed4 (q * 0.97))) ∧
    ∃ w f, toFixed4 (q * 0.97) = w ++ "." ++ f ∧ f.length = 4 := by
  refine ⟨?_, ⟨_, _, rfl, rfl⟩⟩
  simp [onFromAmountChange, invalidInput, hc, not_le.mpr hq]

/-- Witness for C6: input 100 renders the output string 97.0000. -/
theorem onFromAmountChange_valid_output_witness :
    (onFromAmountChange connectedIdle (InputValue.num 100)).2
      = some "97.0000" := by
  rw [(onFromAmountChange_valid_output connectedIdle 100 rfl
    (by norm_num)).1]
  have h1 : (100 * 0.97 : ℚ) = 97 := by norm_num
  show some (toFixed4 (100 * 0.97)) = some "97.0000"
  rw [h1]
  have h2 : ⌊(97 : ℚ) * 10000 + 1 / 2⌋ = 970000 := by
    rw [Int.floor_eq_iff]
    norm_num
  unfold toFixed4
  rw [h2]
  rfl

/-- Claim C7: an empty, non-numeric, zero or negative input makes
onFromAmountChange clear the output field and leave the state, in
particular fromAmount and toAmount, unchanged. -/
theorem onFromAmountChange_invalid_clears (st : SwapState)
    (amount : InputValue) (h : invalidInput amount = true) :
    onFromAmountChange st amount = (st, none) := by
  unfold onFromAmountChange
  rw [h]
  simp

/-- Witness for C7 at the concrete negative input -1. -/
theorem onFromAmountChange_invalid_clears_witness :
    invalidInput (InputValue.num (-1)) = true ∧
    onFromAmountChange connectedIdle (InputValue.num (-1))
      = (connectedIdle, none) :=
  ⟨by decide, onFromAmountChange_invalid_clears connectedIdle
    (InputValue.num (-1)) (by decide)⟩

/-- Claim C8: swapTokenPositions applied twice restores the original token
pair, and each application zeroes both amounts. -/
theorem swapTokenPositions_involutive (st : SwapState) :
    (swapTokenPositions (swapTokenPositions st).1).1.fromToken
      = st.fromToken ∧
    (swapTokenPositions (swapTokenPositions st).1).1.toToken = st.toToken ∧
    (swapTokenPositions st).1.fromAmount = 0 ∧
    (swapTokenPositions st).1.toAmount = 0 ∧
    (swapTokenPositions (swapTokenPositions st).1).1.fromAmount = 0 ∧
    (swapTokenPositions (swapTokenPositions st).1).1.toAmount = 0 := by
  simp [swapTokenPositions]

/-- Claim C9: the balance lookup issues the native-balance query for every
symbol with no truthy registered address and for the native aliases CVX
and CVM; a contract balance query is issued only for a symbol whose
registry entry is a nonempty address, and then its source string is the
contract call on that address and the connected account. -/
theorem getTokenBalance_query_selection (tokens : String → Option String)
    (clientAddress sym : String) :
    ((tokens sym = none ∨ sym = "CVX" ∨ sym = "CVM") →
      getTokenBalanceQuery tokens clientAddress sym = BalanceQuery.native) ∧
    (∀ src,
      getTokenBalanceQuery tokens clientAddress sym
        = BalanceQuery.contractCall src →
      ∃ a, tokens sym = some a ∧ a ≠ "" ∧
        src = contractBalanceSource a clientAddress) := by
  constructor
  · rintro (h | h | h)
    · simp [getTokenBalanceQuery, h, jsTruthyStr]
    · simp [getTokenBalanceQuery, h]
    · simp [getTokenBalanceQuery, h]
  · intro src hsrc
    unfold getTokenBalanceQuery at hsrc
    split at hsrc
    · exact absurd hsrc (by simp)
    · rename_i hcond
      cases hta : tokens sym with
      | none => rw [hta] at hcond; simp [jsTruthyStr] at hcond
      | some a =>
        refine ⟨a, rfl, ?_, ?_⟩
        · intro ha
          rw [hta, ha] at hcond
          simp [jsTruthyStr] at hcond
        · rw [hta] at hsrc
          simpa using hsrc.symm

/-- Witness for C9: an address-less symbol gets the native query. -/
theorem getTokenBalance_query_selection_witness :
    getTokenBalanceQuery (fun _ => none) "#12" "PAI" = BalanceQuery.native :=
  (getTokenBalance_query_selection (fun _ => none) "#12" "PAI").1
    (Or.inl rfl)

/-- Claim C10: a native-to-native pair (both tokens among CVX and CVM,
including CVX to CVM and CVM to CVX) also takes the unsupported branch of
executeSwap: with a connection, no swap in flight and a valid positive
amount, it fails with the token-to-token error and issues no client call,
performing neither a buy nor a sell. -/
theorem executeSwap_native_to_native_unsupported (st : SwapState)
    (netOk : Bool) (q : ℚ) (hc : st.isConnected = true)
    (hs : st.isSwapping = false) (hq : 0 < q)
    (hf : isNative st.fromToken = true) (ht : isNative st.toToken = true) :
    (executeSwap st (some q) netOk).2.1 = [] ∧
    (executeSwap st (some q) netOk).2.2
      = SwapOutcome.failed SwapError.unsupportedSwap := by
  simp [executeSwap, hc, hs, hf, ht, not_le.mpr hq]

/-- Witness for C10 at the concrete pair CVX to CVM with amount 5. -/
theorem executeSwap_native_to_native_unsupported_witness :
    (executeSwap nativePairState (some 5) true).2.1 = [] ∧
    (executeSwap nativePairState (some 5) true).2.2
      = SwapOutcome.failed SwapError.unsupportedSwap :=
  executeSwap_native_to_native_unsupported nativePairState true 5 rfl rfl
    (by norm_num) (by decide) (by decide)
